import Mathlib

set_option maxRecDepth 100000

/-!
# MY-HeatBed-Controller: verification of the temperature / safety core

Shallow embedding of the heat-bed controller firmware.  The repository
contains several divergent copies of some functions; each definition below
records in its doc comment which source file and function it embeds.  The
embedding choices:

* C `float` arithmetic is modelled over `Rat`; the single place where the
  source can produce a non-finite float (the unguarded derivative division
  in `calculatePID`) uses the extended type `FVal` that mirrors IEEE-754
  behaviour for `x / 0` (`+inf`, `-inf`, `NaN`).
* `millis()` timestamps are `Nat`; the C `unsigned long` subtraction
  `millis() - t0` is `usub32` (subtraction modulo `2 ^ 32`).
* An out-of-bounds array access (`tempTable[-1]`) sets the `oobAccess`
  poison flag on the state and makes `interpolate` return `none`.
* `digitalWrite` / `analogWrite` / `Serial.print` are modelled as an event
  trace; relay levels are additionally mirrored in the state
  (`true` = logic HIGH; the relay board is active-low, so HIGH = off).
* `analogRead` and `pulseIn` results are supplied by oracles
  (`analog : Int → Int`, a pulse value; Arduino `pulseIn` yields `0` on
  timeout).
-/

namespace HeatBed

/-- Relay pins, from the pin table in the main source file. -/
def relayPins : List Int :=
  [22, 24, 26, 28, 30, 32, 34, 36, 38, 40, 42, 44, 53, 51, 49, 47]

/-- Temperature sensor pins A0–A15 (Arduino Mega analog pins 54–69). -/
def tempSensors : List Int :=
  [54, 55, 56, 57, 58, 59, 60, 61, 62, 63, 64, 65, 66, 67, 68, 69]

/-- PWM output pins for the DueX5. -/
def pwmOutPins : List Int := [5, 6, 7, 8]

/-- Minimum interval between temperature readings (ms). -/
def readInterval : Nat := 1000

/-- `MAX_SAFE_TEMPERATURE` / `SAFETY_TEMP_MAX` (120 °C). -/
def MAX_SAFE_TEMPERATURE : Rat := 120

/-- `PID_OUTPUT_THRESHOLD`. -/
def PID_OUTPUT_THRESHOLD : Rat := 1/2

/-- `TEMP_HYSTERESIS`. -/
def TEMP_HYSTERESIS : Rat := 2

/-- PID gains (process-wide). -/
def pidKp : Rat := 2

/-- Integral gain. -/
def pidKi : Rat := 1/2

/-- Derivative gain. -/
def pidKd : Rat := 1

/-- The ADC → temperature lookup table (`tempTable` in `tempControl.cpp`). -/
def tempTable : List (Int × Int) :=
  [(1, 300), (200, 250), (300, 200), (400, 150), (500, 120),
   (600, 90), (700, 60), (800, 30), (900, 10), (1023, 0)]

/-- `tempTableSize = sizeof(tempTable)/sizeof(tempTable[0])`. -/
def tempTableSize : Nat := tempTable.length

/-- The mutable firmware globals, gathered into one record. -/
structure SysState where
  activeSegments : List Bool
  relays : List Bool
  cachedTemperatures : List Rat
  lastReadTime : List Nat
  targetTemp : List Rat
  pidIntegral : List Rat
  pidLastError : List Rat
  pidLastUpdate : List Nat
  pwmMinValue : Int
  pwmMaxValue : Int
  tempMin : Rat
  tempMax : Rat
  debugMode : Bool
  thermalSafetyTriggered : Bool
  lastPrintTime : Nat
  oobAccess : Bool
deriving DecidableEq, Repr

/-- Well-formedness: the global arrays have their declared C lengths. -/
def WF (st : SysState) : Prop :=
  st.activeSegments.length = 16 ∧ st.relays.length = 16 ∧
  st.cachedTemperatures.length = 16 ∧ st.lastReadTime.length = 16 ∧
  st.targetTemp.length = 4 ∧ st.pidIntegral.length = 16 ∧
  st.pidLastError.length = 16 ∧ st.pidLastUpdate.length = 16

instance (st : SysState) : Decidable (WF st) := by
  unfold WF; infer_instance

/-- Extended `float` value: the finite case plus the three non-finite IEEE
results that the unguarded derivative division in `calculatePID` can
produce. -/
inductive FVal where
  | fin (q : Rat)
  | pinf
  | ninf
  | nan
deriving DecidableEq, Repr

/-- Observable side effects of a tick. -/
inductive Event where
  | digitalWrite (pin : Int) (level : Bool)
  | analogWrite (pin : Int) (value : Int)
  | printS (s : String)
  | printI (n : Int)
  | printQ (q : Rat)
  | printF (v : FVal)
deriving DecidableEq, Repr

/-- C `unsigned long` subtraction `a - b` (modulo `2 ^ 32`). -/
def usub32 (a b : Nat) : Nat := (a + 2 ^ 32 - b % 2 ^ 32) % 2 ^ 32

/-- Arduino `constrain` on integers. -/
def constrainI (x lo hi : Int) : Int := if x < lo then lo else if x > hi then hi else x

/-- C truncation of a `float` converted to `long` (rounds toward zero). -/
def ratToLong (q : Rat) : Int := if 0 ≤ q then ⌊q⌋ else -⌊-q⌋

/-- Arduino `map` on `long` (C division truncates toward zero, `Int.tdiv`). -/
def mapL (x inMin inMax outMin outMax : Int) : Int :=
  Int.tdiv ((x - inMin) * (outMax - outMin)) (inMax - inMin) + outMin

/-- ADC value of table entry `i` (junk `0` outside the table). -/
def tableAdc (i : Nat) : Int := (tempTable.getD i (0, 0)).1

/-- Temperature of table entry `i` (junk `0` outside the table). -/
def tableTemp (i : Nat) : Int := (tempTable.getD i (0, 0)).2

/-- A C array access `tempTable[j]`: `none` models the out-of-bounds case. -/
def tableGet (j : Int) : Option (Int × Int) :=
  if 0 ≤ j ∧ j < (tempTableSize : Int) then some (tableAdc j.toNat, tableTemp j.toNat)
  else none

/-- The scan loop of `readTemperature` (`tempControl.cpp` line 67):
`while (tempTable[i][0] < analogValue && i < tempTableSize - 1) i++`.
The first argument is structural fuel; `tempTableSize` steps always
suffice because the loop condition bounds `i` by `tempTableSize - 1`. -/
def lookupLoop (analogValue : Int) : Nat → Nat → Nat
  | 0, i => i
  | fuel + 1, i =>
    if tableAdc i < analogValue ∧ i < tempTableSize - 1 then
      lookupLoop analogValue fuel (i + 1)
    else i

/-- Index selected by the scan loop, starting at `i = 0`. -/
def lookupIdx (analogValue : Int) : Nat := lookupLoop analogValue tempTableSize 0

/-- The interpolation step of `readTemperature` (`tempControl.cpp`
lines 72–77).  Accesses entries `i` and `i - 1`; an out-of-bounds access
(which happens when `i = 0`) yields `none`. -/
def interpolate (analogValue : Int) : Option Rat :=
  let i := lookupIdx analogValue
  match tableGet (i : Int), tableGet ((i : Int) - 1) with
  | some (adcHigh, tempHigh), some (adcLow, tempLow) =>
      some ((tempLow : Rat) +
        ((analogValue : Rat) - (adcLow : Rat)) * ((tempHigh : Rat) - (tempLow : Rat)) /
          ((adcHigh : Rat) - (adcLow : Rat)))
  | _, _ => none

/-- Pin → sensor-index scan at the top of `readTemperature`
(`for (i = 0; i < 16; i++) if (tempSensors[i] == sensorPin) ...`),
with structural fuel (16 steps from `i = 0` always suffice). -/
def findSensorIndexLoop (sensorPin : Int) : Nat → Nat → Int
  | 0, _ => -1
  | fuel + 1, i =>
    if i < 16 then
      if tempSensors.getD i 0 = sensorPin then (i : Int)
      else findSensorIndexLoop sensorPin fuel (i + 1)
    else -1

/-- `sensorIndex` as computed by `readTemperature` (−1 if the pin is unknown). -/
def findSensorIndex (sensorPin : Int) : Int := findSensorIndexLoop sensorPin 16 0

/-- Result of one `readTemperature` call. -/
structure ReadResult where
  value : Rat
  state : SysState
  didAnalogRead : Bool
deriving DecidableEq

/-- `readTemperature` (`tempControl.cpp` lines 34–83): rate-limited cached
read, range check, table interpolation.  The timestamp is advanced before
the range check (the behaviour claim C10 is about); the out-of-bounds
interpolation case poisons the state with `oobAccess`. -/
def readTemperature (now : Nat) (analog : Int → Int) (sensorPin : Int)
    (st : SysState) : ReadResult :=
  let sensorIndex := findSensorIndex sensorPin
  if sensorIndex = -1 then ⟨-999, st, false⟩
  else
    let idx := sensorIndex.toNat
    if usub32 now (st.lastReadTime.getD idx 0) < readInterval then
      ⟨st.cachedTemperatures.getD idx 0, st, false⟩
    else
      let st1 := { st with lastReadTime := st.lastReadTime.set idx now }
      let analogValue := analog sensorPin
      if analogValue ≤ 0 ∨ analogValue ≥ 1023 then
        ⟨-999, { st1 with cachedTemperatures := st1.cachedTemperatures.set idx (-999) }, true⟩
      else
        match interpolate analogValue with
        | none => ⟨0, { st1 with oobAccess := true }, true⟩
        | some t =>
            ⟨t, { st1 with cachedTemperatures := st1.cachedTemperatures.set idx t }, true⟩

/-! ## Arduino `String` operations used by the command parsers -/

/-- Arduino `String::startsWith`. -/
def strStarts (s p : String) : Bool := p.data.isPrefixOf s.data

/-- Arduino `String::substring(from)` (to the end of the string). -/
def substrFrom (s : String) (i : Nat) : String := ⟨s.data.drop i⟩

/-- C conversion of an `int` to `unsigned int` (Arduino `String` indices
are unsigned, so a `-1` from `indexOf` wraps to a huge value). -/
def toU32 (x : Int) : Nat := (x % (2 ^ 32 : Int)).toNat

/-- Arduino `String::substring(left, right)`: swaps a reversed pair and
clamps to the string length. -/
def substrAB (s : String) (l r : Int) : String :=
  let left := toU32 l
  let right := toU32 r
  let lo := if left > right then right else left
  let hi := if left > right then left else right
  ⟨(s.data.take hi).drop lo⟩

/-- Scan helper for `indexOf`. -/
def indexOfChAux (c : Char) : List Char → Nat → Int
  | [], _ => -1
  | a :: rest, i => if a = c then (i : Int) else indexOfChAux c rest (i + 1)

/-- Arduino `String::indexOf(c, from)`. -/
def indexOfChFrom (s : String) (c : Char) (start : Nat) : Int :=
  let k := indexOfChAux c (s.data.drop start) 0
  if k = -1 then -1 else k + (start : Int)

/-- Arduino `String::lastIndexOf(c, from)`: last occurrence at index ≤ `from`
(the `from` argument is converted to unsigned and clamped to the length). -/
def lastIndexOfChBefore (s : String) (c : Char) (fromIdx : Int) : Int :=
  let limit := min (toU32 fromIdx) (s.length - 1)
  ((List.range (limit + 1)).filter
      (fun i => s.data.getD i (Char.ofNat 0) = c)).foldl (fun _ i => (i : Int)) (-1)

/-- Arduino `String::lastIndexOf(c)`. -/
def lastIndexOfCh (s : String) (c : Char) : Int :=
  lastIndexOfChBefore s c ((s.length : Int) - 1)

/-- Whitespace skipped by C `atol` / `atof`. -/
def isSpaceCh (c : Char) : Bool := c = ' ' ∨ c = '\t' ∨ c = '\n' ∨ c = '\r'

/-- Accumulate leading decimal digits (stops at the first non-digit). -/
def digitsVal : List Char → Int → Int
  | [], acc => acc
  | c :: rest, acc =>
    if c.isDigit then digitsVal rest (acc * 10 + ((c.toNat : Int) - 48)) else acc

/-- Arduino `String::toInt` (C `atol`): optional sign, leading digits,
`0` when there are none. -/
def arduinoToInt (s : String) : Int :=
  match s.data.dropWhile isSpaceCh with
  | '-' :: rest => -(digitsVal rest 0)
  | '+' :: rest => digitsVal rest 0
  | cs => digitsVal cs 0

/-- Unsigned decimal part of `atof` (no exponent; the firmware's commands
only ever carry plain decimals). -/
def atofMag (cs : List Char) : Rat :=
  let ds := cs.takeWhile Char.isDigit
  let rest := cs.dropWhile Char.isDigit
  let ip : Int := digitsVal ds 0
  match rest with
  | '.' :: fs =>
      let fds := fs.takeWhile Char.isDigit
      (ip : Rat) + (digitsVal fds 0 : Rat) / ((10 ^ fds.length : Nat) : Rat)
  | _ => (ip : Rat)

/-- Arduino `String::toFloat` (C `atof`, without exponent notation). -/
def arduinoToFloat (s : String) : Rat :=
  match s.data.dropWhile isSpaceCh with
  | '-' :: rest => -(atofMag rest)
  | '+' :: rest => atofMag rest
  | cs => atofMag cs

/-! ## Segment registry operations -/

/-- `printActiveSegments` (print events only; comma layout elided). -/
def printActiveSegments (st : SysState) : List Event :=
  let actives := (List.range 16).filter (fun i => st.activeSegments.getD i false)
  [.printS "Active segments: "] ++ actives.map (fun i => Event.printI ((i : Int) + 1)) ++
    (if actives.isEmpty then [.printS "None"] else [])

/-- `activateSegment` (`Codigo.txt` lines 543–554): guard 1–16, relay LOW
(on), `active := true`. -/
def activateSegment (segment : Int) (st : SysState) : SysState × List Event :=
  if segment < 1 ∨ segment > 16 then (st, [])
  else
    let index := (segment - 1).toNat
    let st := { st with relays := st.relays.set index false,
                        activeSegments := st.activeSegments.set index true }
    (st, [.digitalWrite (relayPins.getD index 0) false,
          .printS "Segment activated: ", .printI segment] ++ printActiveSegments st)

/-- `deactivateSegment` (`Codigo.txt` lines 557–568): guard 1–16, relay HIGH
(off), `active := false`. -/
def deactivateSegment (segment : Int) (st : SysState) : SysState × List Event :=
  if segment < 1 ∨ segment > 16 then (st, [])
  else
    let index := (segment - 1).toNat
    let st := { st with relays := st.relays.set index true,
                        activeSegments := st.activeSegments.set index false }
    (st, [.digitalWrite (relayPins.getD index 0) true,
          .printS "Segment deactivated: ", .printI segment] ++ printActiveSegments st)

/-- `activateAllSegments` (`Codigo.txt` lines 571–579): all relays LOW (on),
all `active := true`. -/
def activateAllSegments (st : SysState) : SysState × List Event :=
  let st := (List.range 16).foldl
    (fun st i => { st with relays := st.relays.set i false,
                           activeSegments := st.activeSegments.set i true }) st
  (st, (List.range 16).map (fun i => Event.digitalWrite (relayPins.getD i 0) false) ++
    [.printS "All segments activated."] ++ printActiveSegments st)

/-- `deactivateAllSegments` from `src/unnamed/part_002` lines 166–171 (the
version in the compiled SerialCommands translation unit, cited by the
claims).  Note: it drives every relay pin LOW — the electrically ON state
for the active-low relay board — where `Codigo.txt`'s copy and `setupPins`
("Keep relays off (active LOW)") write HIGH. -/
def deactivateAllSegments (st : SysState) : SysState × List Event :=
  let st := (List.range 16).foldl
    (fun st i => { st with relays := st.relays.set i false,
                           activeSegments := st.activeSegments.set i false }) st
  (st, (List.range 16).map (fun i => Event.digitalWrite (relayPins.getD i 0) false))

/-- `resetThermalSafety` (`Safety.cpp` / `Codigo.txt`): clears the latch. -/
def resetThermalSafety (st : SysState) : SysState × List Event :=
  ({ st with thermalSafetyTriggered := false },
   [.printS "Thermal safety state reset. System ready for use."])

/-- `configurePWMRange` (`Codigo.txt` lines 238–253). -/
def configurePWMRange (minPWM maxPWM : Int) (minTemp maxTemp : Rat)
    (st : SysState) : SysState × List Event :=
  ({ st with pwmMinValue := minPWM, pwmMaxValue := maxPWM,
             tempMin := minTemp, tempMax := maxTemp },
   [.printS "PWM range configured:", .printI minPWM, .printI maxPWM,
    .printQ minTemp, .printQ maxTemp])

/-- `printHelp` (print events only). -/
def printHelp : List Event :=
  [.printS "Available commands:", .printS "  ON ALL", .printS "  OFF ALL",
   .printS "  ON <n>", .printS "  OFF <n>", .printS "  SET_PWM_RANGE",
   .printS "  DEBUG ON", .printS "  DEBUG OFF", .printS "  STATUS",
   .printS "  HELP", .printS "  RESET_SAFETY"]

/-- Per-segment loop of `printSystemStatus` (`tempControl.cpp` lines 278–286):
prints and reads each segment's temperature (which can update the cache). -/
def pssLoop (now : Nat) (analog : Int → Int) : List Nat → SysState → SysState × List Event
  | [], st => (st, [])
  | i :: rest, st =>
    let r := readTemperature now analog (tempSensors.getD i 0) st
    let ev := [Event.printS "Segment ", Event.printI ((i : Int) + 1),
               Event.printS (if st.activeSegments.getD i false then "Active" else "Inactive"),
               Event.printQ r.value]
    let (st2, evr) := pssLoop now analog rest r.state
    (st2, ev ++ evr)

/-- `printSystemStatus` (`tempControl.cpp` lines 274–295, the complete
variant; the stub in `part_002` only prints a header). -/
def printSystemStatus (now : Nat) (analog : Int → Int) (st : SysState) :
    SysState × List Event :=
  let (st1, ev) := pssLoop now analog (List.range 16) st
  (st1,
   [Event.printS "=== System Status ===",
    Event.printS (if st.debugMode then "Debug Mode: Enabled" else "Debug Mode: Disabled"),
    Event.printS (if st.thermalSafetyTriggered then "Thermal Safety State: Triggered"
                  else "Thermal Safety State: Normal")] ++ ev ++
   (List.range 4).map (fun i => Event.printQ (st1.targetTemp.getD i 0)) ++
   [Event.printS "====================="])

/-! ## PID engine -/

/-- `float` addition of a finite value with an extended value. -/
def FVal.addFin (q : Rat) : FVal → FVal
  | .fin b => .fin (q + b)
  | .pinf => .pinf
  | .ninf => .ninf
  | .nan => .nan

/-- IEEE result of `n / 0` for finite `n` (`dt` is a non-negative zero
here, so the sign of the infinity is the sign of `n`; `0 / 0` is NaN). -/
def divByZeroSign (n : Rat) : FVal :=
  if n > 0 then .pinf else if n < 0 then .ninf else .nan

/-- `float` division by `dt` (finite when `dt ≠ 0`). -/
def fdivF (n dt : Rat) : FVal := if dt = 0 then divByZeroSign n else .fin (n / dt)

/-- Arduino `constrain` applied to an extended value: the C macro
`(amt)<(low)?(low):((amt)>(high)?(high):(amt))` — every comparison with
NaN is false, so NaN passes through unchanged. -/
def constrainF : FVal → Rat → Rat → FVal
  | .fin q, lo, hi => .fin (if q < lo then lo else if q > hi then hi else q)
  | .pinf, _, hi => .fin hi
  | .ninf, lo, _ => .fin lo
  | .nan, _, _ => .nan

/-- `pidOutput > PID_OUTPUT_THRESHOLD` on an extended value (NaN compares
false). -/
def FVal.gtR : FVal → Rat → Bool
  | .fin q, t => q > t
  | .pinf, _ => true
  | .ninf, _ => false
  | .nan, _ => false

/-- `calculatePID` (`tempControl.cpp` lines 219–243).  `deltaTime` is the
unsigned-wrap elapsed time in seconds; note the derivative division has no
`deltaTime == 0` guard. -/
def calculatePID (now : Nat) (segmentIndex : Nat) (currentTemp targetT : Rat)
    (st : SysState) : FVal × SysState :=
  let deltaTime : Rat := ((usub32 now (st.pidLastUpdate.getD segmentIndex 0) : Nat) : Rat) / 1000
  let st := { st with pidLastUpdate := st.pidLastUpdate.set segmentIndex now }
  let error := targetT - currentTemp
  let proportional := pidKp * error
  let newIntegral := st.pidIntegral.getD segmentIndex 0 + error * deltaTime
  let st := { st with pidIntegral := st.pidIntegral.set segmentIndex newIntegral }
  let integral := pidKi * newIntegral
  let derivative := fdivF (pidKd * (error - st.pidLastError.getD segmentIndex 0)) deltaTime
  let st := { st with pidLastError := st.pidLastError.set segmentIndex error }
  let output := FVal.addFin (proportional + integral) derivative
  (constrainF output 0 1, st)

/-- `readTargetTemperature` (`tempControl.cpp` lines 85–98).  The pulse
value is the `pulseIn` result (Arduino `pulseIn` returns `0` on timeout);
`map`'s `long` arguments truncate the configured temperatures. -/
def readTargetTemperature (pulseInResult : Int) (st : SysState) : Rat × List Event :=
  let pwmValue := pulseInResult
  if pwmValue < st.pwmMinValue ∨ pwmValue > st.pwmMaxValue then
    (-999, [.printS "Error: PWM signal out of valid range (", .printI pwmValue, .printS ")."])
  else
    ((mapL pwmValue st.pwmMinValue st.pwmMaxValue
        (ratToLong st.tempMin) (ratToLong st.tempMax) : Int), [])

/-! ## Section aggregation and heating control -/

/-- Accumulator loop of `updateTemperaturePWM` (`tempControl.cpp`
lines 107–121): sums of valid readings and of active valid readings. -/
def utpLoop (now : Nat) (analog : Int → Int) :
    List Nat → SysState × Rat × Nat × Rat × Nat → SysState × Rat × Nat × Rat × Nat
  | [], acc => acc
  | i :: rest, (st, sA, cA, sAll, cAll) =>
    let r := readTemperature now analog (tempSensors.getD i 0) st
    let sAll' := if r.value ≠ -999 then sAll + r.value else sAll
    let cAll' := if r.value ≠ -999 then cAll + 1 else cAll
    let sA' := if r.state.activeSegments.getD i false ∧ r.value ≠ -999 then sA + r.value else sA
    let cA' := if r.state.activeSegments.getD i false ∧ r.value ≠ -999 then cA + 1 else cA
    utpLoop now analog rest (r.state, sA', cA', sAll', cAll')

/-- The inverted PWM mapping at the end of `updateTemperaturePWM`
(lines 152–153): `constrain(map(avgTemp, tempMin, tempMax, pwmMaxValue,
pwmMinValue), pwmMinValue, pwmMaxValue)` with C float→long truncation. -/
def pwmValueOf (st : SysState) (avgTemp : Rat) : Int :=
  constrainI
    (mapL (ratToLong avgTemp) (ratToLong st.tempMin) (ratToLong st.tempMax)
      st.pwmMaxValue st.pwmMinValue)
    st.pwmMinValue st.pwmMaxValue

/-- Tail of `updateTemperaturePWM` (lines 151–163): branch prints, the
analog write of the mapped value, and the trailing report prints. -/
def utpFinish (secIndex : Nat) (branchEv : List Event) (avgTemp : Rat)
    (st : SysState) : SysState × List Event :=
  let pwmValue := pwmValueOf st avgTemp
  (st, branchEv ++
    [Event.analogWrite (pwmOutPins.getD secIndex 0) pwmValue,
     Event.printS "Sec ", Event.printI ((secIndex : Int) + 1),
     Event.printS " Avg Temp Sent: ", Event.printQ avgTemp,
     Event.printS "°C -> PWM: ", Event.printI pwmValue])

/-- `updateTemperaturePWM` (`tempControl.cpp` lines 100–164): aggregates a
section's temperature with the active-valid / all-valid / default-25
fallback and drives the section's PWM output pin. -/
def updateTemperaturePWM (now : Nat) (analog : Int → Int)
    (secIndex start endI : Nat) (st : SysState) : SysState × List Event :=
  let a := utpLoop now analog (List.range' start (endI + 1 - start)) (st, 0, 0, 0, 0)
  let st1 := a.1
  let sA := a.2.1
  let cA := a.2.2.1
  let sAll := a.2.2.2.1
  let cAll := a.2.2.2.2
  if cA > 0 then
    utpFinish secIndex
      [Event.printS "Sec ", Event.printI ((secIndex : Int) + 1),
       Event.printS " (active): ", Event.printQ (sA / (cA : Rat)), Event.printS "°C"]
      (sA / (cA : Rat)) st1
  else if cAll > 0 then
    utpFinish secIndex
      [Event.printS "Sec ", Event.printI ((secIndex : Int) + 1),
       Event.printS " (none active): ", Event.printQ (sAll / (cAll : Rat)), Event.printS "°C"]
      (sAll / (cAll : Rat)) st1
  else
    utpFinish secIndex
      [Event.printS "Sec ", Event.printI ((secIndex : Int) + 1),
       Event.printS ": No valid sensor found. Sending default value (25°C)."]
      25 st1

/-- Summation loop of `controlHeating` (`tempControl.cpp` lines 170–175):
active segments only (sentinel readings are summed too). -/
def chSumLoop (now : Nat) (analog : Int → Int) :
    List Nat → SysState × Rat × Nat → SysState × Rat × Nat
  | [], acc => acc
  | i :: rest, (st, sum, count) =>
    if st.activeSegments.getD i false then
      let r := readTemperature now analog (tempSensors.getD i 0) st
      chSumLoop now analog rest (r.state, sum + r.value, count + 1)
    else chSumLoop now analog rest (st, sum, count)

/-- Relay pass of `controlHeating` (lines 184–192). -/
def chWriteLoop (heatingOn heatingOff : Bool) :
    List Nat → SysState → SysState × List Event
  | [], st => (st, [])
  | i :: rest, st =>
    if st.activeSegments.getD i false then
      if heatingOn then
        let st1 := { st with relays := st.relays.set i false }
        let a := chWriteLoop heatingOn heatingOff rest st1
        (a.1, Event.digitalWrite (relayPins.getD i 0) false :: a.2)
      else if heatingOff then
        let st1 := { st with relays := st.relays.set i true }
        let a := chWriteLoop heatingOn heatingOff rest st1
        (a.1, Event.digitalWrite (relayPins.getD i 0) true :: a.2)
      else chWriteLoop heatingOn heatingOff rest st
    else chWriteLoop heatingOn heatingOff rest st

/-- `controlHeating` (`tempControl.cpp` lines 166–201): hysteresis on/off
control of the active segments of a section. -/
def controlHeating (now : Nat) (analog : Int → Int)
    (secIndex start endI : Nat) (st : SysState) : SysState × List Event :=
  let a := chSumLoop now analog (List.range' start (endI + 1 - start)) (st, 0, 0)
  let st1 := a.1
  let sum := a.2.1
  let count := a.2.2
  let avgTemp : Rat := if count > 0 then sum / (count : Rat) else 0
  let target := st1.targetTemp.getD secIndex 0
  let b := chWriteLoop (decide (avgTemp < target - TEMP_HYSTERESIS))
    (decide (avgTemp > target + TEMP_HYSTERESIS))
    (List.range' start (endI + 1 - start)) st1
  (b.1, b.2 ++
    [Event.printS "Sec ", Event.printI ((secIndex : Int) + 1),
     Event.printS " Current Temp: ", Event.printQ avgTemp,
     Event.printS "°C | Setpoint: ", Event.printQ target])

/-- Per-segment loop of `controlHeatingWithPID` (`tempControl.cpp`
lines 246–271). -/
def chpLoop (now : Nat) (analog : Int → Int) (secIndex : Nat) :
    List Nat → SysState → SysState × List Event
  | [], st => (st, [])
  | i :: rest, st =>
    if st.activeSegments.getD i false then
      let r := readTemperature now analog (tempSensors.getD i 0) st
      let target := r.state.targetTemp.getD secIndex 0
      let p := calculatePID now i r.value target r.state
      let pidOutput := p.1
      let st2 := p.2
      let w :=
        if pidOutput.gtR PID_OUTPUT_THRESHOLD then
          ({ st2 with relays := st2.relays.set i false },
           [Event.digitalWrite (relayPins.getD i 0) false])
        else
          ({ st2 with relays := st2.relays.set i true },
           [Event.digitalWrite (relayPins.getD i 0) true])
      let evp := [Event.printS "Segment ", Event.printI ((i : Int) + 1),
                  Event.printS " | Current Temp: ", Event.printQ r.value,
                  Event.printS "°C | Setpoint: ", Event.printQ target,
                  Event.printS "°C | PID Output: ", Event.printF pidOutput]
      let a := chpLoop now analog secIndex rest w.1
      (a.1, w.2 ++ evp ++ a.2)
    else chpLoop now analog secIndex rest st

/-- `controlHeatingWithPID` (`tempControl.cpp` lines 245–272). -/
def controlHeatingWithPID (now : Nat) (analog : Int → Int)
    (secIndex start endI : Nat) (st : SysState) : SysState × List Event :=
  chpLoop now analog secIndex (List.range' start (endI + 1 - start)) st

/-! ## Thermal safety monitor and diagnostics -/

/-- Scan loop of `checkThermalSafety` (`tempControl.cpp` lines 204–216):
first violation trips the latch, deactivates everything and breaks. -/
def ctsLoop (now : Nat) (analog : Int → Int) :
    List Nat → SysState → SysState × List Event
  | [], st => (st, [])
  | i :: rest, st =>
    let r := readTemperature now analog (tempSensors.getD i 0) st
    if r.value > MAX_SAFE_TEMPERATURE then
      let st1 := { r.state with thermalSafetyTriggered := true }
      let d := deactivateAllSegments st1
      (d.1, d.2 ++
        [Event.printS "ALERT: Critical temperature detected in segment ",
         Event.printI ((i : Int) + 1), Event.printQ r.value,
         Event.printS "°C). All segments deactivated!"])
    else ctsLoop now analog rest r.state

/-- `checkThermalSafety` (`tempControl.cpp` lines 203–217; `Safety.cpp`
has an identical copy).  Trip condition is strictly `temp >
MAX_SAFE_TEMPERATURE`. -/
def checkThermalSafety (now : Nat) (analog : Int → Int) (st : SysState) :
    SysState × List Event :=
  ctsLoop now analog (List.range 16) st

/-- Per-segment loop of `debugMonitor` (reads and prints). -/
def dmLoop (now : Nat) (analog : Int → Int) :
    List Nat → SysState → SysState × List Event
  | [], st => (st, [])
  | i :: rest, st =>
    let r := readTemperature now analog (tempSensors.getD i 0) st
    let ev := [Event.printS "Segment ", Event.printI ((i : Int) + 1),
               Event.printS (if st.activeSegments.getD i false then "Active" else "Inactive"),
               Event.printQ r.value]
    let a := dmLoop now analog rest r.state
    (a.1, ev ++ a.2)

/-- `debugMonitor` (`Debug.cpp` / `Codigo.txt`). -/
def debugMonitor (now : Nat) (analog : Int → Int) (st : SysState) :
    SysState × List Event :=
  let a := dmLoop now analog (List.range 16) st
  (a.1, [Event.printS "=== System Monitoring ==="] ++ a.2 ++
    (List.range 4).map (fun i => Event.printQ (a.1.targetTemp.getD i 0)) ++
    [Event.printS "========================="])

/-- `printActiveSegmentsPeriodically` (`Debug.cpp` / `Codigo.txt`); the
`static` timestamp lives in the state. -/
def printActiveSegmentsPeriodically (now : Nat) (st : SysState) :
    SysState × List Event :=
  if usub32 now st.lastPrintTime ≥ 5000 then
    ({ st with lastPrintTime := now }, printActiveSegments st)
  else (st, [])

/-- One iteration of the `updateAllSections` loop body
(`updateTemperaturePWM(i, 4i, 4i+3)` then `controlHeating(i, 4i, 4i+3)`). -/
def uasStep (now : Nat) (analog : Int → Int) (acc : SysState × List Event)
    (i : Nat) : SysState × List Event :=
  let u := updateTemperaturePWM now analog i (i * 4) (i * 4 + 3) acc.1
  let c := controlHeating now analog i (i * 4) (i * 4 + 3) u.1
  (c.1, acc.2 ++ u.2 ++ c.2)

/-- `updateAllSections` (`part_001` lines 170–175 / `Codigo.txt`):
`updateTemperaturePWM` then `controlHeating` for each of the 4 sections. -/
def updateAllSections (now : Nat) (analog : Int → Int) (st : SysState) :
    SysState × List Event :=
  (List.range 4).foldl (uasStep now analog) (st, [])

/-- The PID pass of the main loop (`part_001` lines 145–147):
`controlHeatingWithPID(i, 4i, 4i+3)` for each section. -/
def pidAllSections (now : Nat) (analog : Int → Int) (st : SysState) :
    SysState × List Event :=
  (List.range 4).foldl
    (fun acc i =>
      let c := controlHeatingWithPID now analog i (i * 4) (i * 4 + 3) acc.1
      (c.1, acc.2 ++ c.2))
    (st, [])

/-! ## Command processing -/

/-- `processSerialCommands` (`src/unnamed/part_002` lines 11–77), applied
to one available line from the local Serial channel. -/
def processSerialCommand (now : Nat) (analog : Int → Int) (line : String)
    (st : SysState) : SysState × List Event :=
  let command := line.trim
  let echo := [Event.printS "Received command: \"", Event.printS command,
               Event.printS "\""]
  let r :=
    if command = "DEBUG ON" then
      ({ st with debugMode := true }, [Event.printS "Debug mode enabled."])
    else if command = "DEBUG OFF" then
      ({ st with debugMode := false }, [Event.printS "Debug mode disabled."])
    else if command = "STATUS" then printSystemStatus now analog st
    else if strStarts command "SET_PWM_RANGE" then
      let sp1 := indexOfChFrom command ' ' 14
      let lsp := lastIndexOfCh command ' '
      let minPWM := arduinoToInt (substrAB command 14 sp1)
      let maxPWM := arduinoToInt (substrAB command (sp1 + 1) lsp)
      let minTemp := arduinoToFloat
        (substrAB command (lsp + 1) (lastIndexOfChBefore command ' ' (lsp - 1)))
      let maxTemp := arduinoToFloat (substrFrom command (toU32 (lsp + 1)))
      configurePWMRange minPWM maxPWM minTemp maxTemp st
    else if command = "ON ALL" then
      if ¬ st.thermalSafetyTriggered then
        let a := activateAllSegments st
        (a.1, a.2 ++ [Event.printS "All segments activated."])
      else
        (st, [Event.printS "Error: System in thermal safety state. Reset before continuing."])
    else if command = "OFF ALL" then
      let a := deactivateAllSegments st
      (a.1, a.2 ++ [Event.printS "All segments deactivated."])
    else if strStarts command "ON" then
      let segmentNumber := arduinoToInt (substrFrom command 3)
      if 1 ≤ segmentNumber ∧ segmentNumber ≤ 16 then
        if ¬ st.thermalSafetyTriggered then
          let a := activateSegment segmentNumber st
          (a.1, a.2 ++ [Event.printS "Segment ", Event.printI segmentNumber,
                        Event.printS " activated."])
        else
          (st, [Event.printS "Error: System in thermal safety state. Reset before continuing."])
      else (st, [Event.printS "Error: Invalid segment number. Use HELP to see commands."])
    else if strStarts command "OFF" then
      let segmentNumber := arduinoToInt (substrFrom command 4)
      if 1 ≤ segmentNumber ∧ segmentNumber ≤ 16 then
        let a := deactivateSegment segmentNumber st
        (a.1, a.2 ++ [Event.printS "Segment ", Event.printI segmentNumber,
                      Event.printS " deactivated."])
      else (st, [Event.printS "Error: Invalid segment number. Use HELP to see commands."])
    else if command = "HELP" then (st, printHelp)
    else if command = "RESET_SAFETY" then resetThermalSafety st
    else (st, [Event.printS "Error: Unrecognized command. Use HELP to see commands."])
  (r.1, echo ++ r.2)

/-- `processExternalCommand` (`src/unnamed/part_002` lines 79–133):
the Duet (Serial1) command set. -/
def processExternalCommand (now : Nat) (analog : Int → Int) (cmdIn : String)
    (st : SysState) : SysState × List Event :=
  let command := cmdIn.trim
  if command = "ON ALL" then
    if ¬ st.thermalSafetyTriggered then
      let a := activateAllSegments st
      (a.1, a.2 ++ [Event.printS "All segments activated (Duet)."])
    else (st, [Event.printS "Error: Thermal safety active (Duet)."])
  else if command = "OFF ALL" then
    let a := deactivateAllSegments st
    (a.1, a.2 ++ [Event.printS "All segments deactivated (Duet)."])
  else if strStarts command "ON" then
    let segmentNumber := arduinoToInt (substrFrom command 3)
    if 1 ≤ segmentNumber ∧ segmentNumber ≤ 16 then
      if ¬ st.thermalSafetyTriggered then
        let a := activateSegment segmentNumber st
        (a.1, a.2 ++ [Event.printS "Segment ", Event.printI segmentNumber,
                      Event.printS " activated (Duet)."])
      else (st, [Event.printS "Error: Thermal safety active (Duet)."])
    else (st, [Event.printS "Error: Invalid segment number (Duet)."])
  else if strStarts command "OFF" then
    let segmentNumber := arduinoToInt (substrFrom command 4)
    if 1 ≤ segmentNumber ∧ segmentNumber ≤ 16 then
      let a := deactivateSegment segmentNumber st
      (a.1, a.2 ++ [Event.printS "Segment ", Event.printI segmentNumber,
                    Event.printS " deactivated (Duet)."])
    else (st, [Event.printS "Error: Invalid segment number (Duet)."])
  else if command = "RESET_SAFETY" then
    let a := resetThermalSafety st
    (a.1, a.2 ++ [Event.printS "Thermal safety state reset (Duet)."])
  else if command = "DEBUG ON" then
    ({ st with debugMode := true }, [Event.printS "Debug mode enabled (Duet)."])
  else if command = "DEBUG OFF" then
    ({ st with debugMode := false }, [Event.printS "Debug mode disabled (Duet)."])
  else if command = "HELP" then (st, printHelp)
  else if command = "STATUS" then printSystemStatus now analog st
  else (st, [Event.printS "Error: Unrecognized command (Duet): ", Event.printS command])

/-! ## The main loop -/

/-- External inputs of one `loop()` iteration: the current `millis()`, the
ADC oracle, and the pending line (if any) on each serial channel. -/
structure Env where
  now : Nat
  analog : Int → Int
  serial : Option String
  serial1 : Option String

/-- `processSerialCommands()` at the top of the untripped branch: consumes
the pending local-serial line if one is available. -/
def loopSerialPhase (env : Env) (st : SysState) : SysState × List Event × Bool :=
  match env.serial with
  | some line =>
    let p := processSerialCommand env.now env.analog line st
    (p.1, p.2, true)
  | none => (st, [], false)

/-- The control part of the untripped branch of `loop()`:
`updateAllSections`, `printActiveSegmentsPeriodically`, the PID pass,
`checkThermalSafety`, and the optional `debugMonitor`. -/
def loopControlPhase (env : Env) (st : SysState) : SysState × List Event :=
  let u := updateAllSections env.now env.analog st
  let pr := printActiveSegmentsPeriodically env.now u.1
  let pid := pidAllSections env.now env.analog pr.1
  let cts := checkThermalSafety env.now env.analog pid.1
  let dbg := if cts.1.debugMode then debugMonitor env.now env.analog cts.1
             else (cts.1, [])
  (dbg.1, u.2 ++ pr.2 ++ pid.2 ++ cts.2 ++ dbg.2)

/-- The guarded first half of `loop()` (`src/unnamed/part_001`
lines 140–157): the full control phase when the latch is clear, only the
warning banner when tripped.  The `Bool` records whether the local Serial
channel was consumed (while tripped, `processSerialCommands` is never
reached, so a pending local line stays unconsumed). -/
def loopMain (env : Env) (st : SysState) : SysState × List Event × Bool :=
  if ¬ st.thermalSafetyTriggered then
    let s1 := loopSerialPhase env st
    let c := loopControlPhase env s1.1
    (c.1, s1.2.1 ++ c.2, s1.2.2)
  else
    (st, [Event.printS "System in thermal safety state. Use RESET_SAFETY command to reset."],
     false)

/-- One iteration of `loop()` (`src/unnamed/part_001` lines 139–167): the
guarded control phase, then the Serial1 (Duet) poll at the bottom of the
loop, which runs in every iteration regardless of the latch. -/
def loopTick (env : Env) (st : SysState) : SysState × List Event × Bool :=
  let main := loopMain env st
  match env.serial1 with
  | some line =>
    let recebido := line.trim
    let p := processExternalCommand env.now env.analog recebido main.1
    (p.1, main.2.1 ++ [Event.printS "Recebido da Duet: ", Event.printS recebido] ++ p.2,
     main.2.2)
  | none => (main.1, main.2.1, main.2.2)

/-! ## Concrete states used by the theorems -/

/-- The firmware's initial global state (`part_001` initial values:
`pwmMaxValue = 255`, `tempMax = 280.0`). -/
def initialState : SysState where
  activeSegments := List.replicate 16 false
  relays := List.replicate 16 true
  cachedTemperatures := List.replicate 16 0
  lastReadTime := List.replicate 16 0
  targetTemp := List.replicate 4 0
  pidIntegral := List.replicate 16 0
  pidLastError := List.replicate 16 0
  pidLastUpdate := List.replicate 16 0
  pwmMinValue := 0
  pwmMaxValue := 255
  tempMin := 0
  tempMax := 280
  debugMode := false
  thermalSafetyTriggered := false
  lastPrintTime := 0
  oobAccess := false

/-! ## Cache-window infrastructure -/

/-- For every segment index, looking up its own sensor pin finds it. -/
lemma findSensorIndex_tempSensors :
    ∀ i : Nat, i < 16 → findSensorIndex (tempSensors.getD i 0) = (i : Int) := by
  decide

/-- Inside the rate-limit window `readTemperature` returns the cached value
and leaves the state untouched (no analog read). -/
lemma readTemperature_cacheHit (now : Nat) (analog : Int → Int) (st : SysState)
    (i : Nat) (hi : i < 16)
    (hfresh : usub32 now (st.lastReadTime.getD i 0) < readInterval) :
    readTemperature now analog (tempSensors.getD i 0) st =
      ⟨st.cachedTemperatures.getD i 0, st, false⟩ := by
  unfold readTemperature
  rw [findSensorIndex_tempSensors i hi]
  rw [if_neg (by omega : ¬ ((i : Int) = -1))]
  simp only [Int.toNat_natCast]
  rw [if_pos hfresh]

/-- A safety scan over fresh-cache segments none of which exceeds the
ceiling does nothing. -/
lemma ctsLoop_no_trip (now : Nat) (analog : Int → Int) :
    ∀ (L : List Nat) (st : SysState),
      (∀ i ∈ L, i < 16 ∧ usub32 now (st.lastReadTime.getD i 0) < readInterval ∧
        ¬ (st.cachedTemperatures.getD i 0 > MAX_SAFE_TEMPERATURE)) →
      ctsLoop now analog L st = (st, []) := by
  intro L
  induction L with
  | nil => intro st _; rfl
  | cons i rest ih =>
    intro st h
    obtain ⟨hi, hfresh, hle⟩ := h i (by simp)
    rw [ctsLoop, readTemperature_cacheHit now analog st i hi hfresh]
    simp only
    rw [if_neg hle]
    exact ih st (fun j hj => h j (by simp [hj]))

/-! ## Lookup-table characterization (for the interpolation claims) -/

/-- The table has 10 entries. -/
lemma tempTableSize_eq : tempTableSize = 10 := rfl

/-- The table's ADC values are strictly increasing. -/
lemma tableAdc_strict : ∀ i < 10, ∀ j < 10, i < j → tableAdc i < tableAdc j := by
  decide

/-- The table's temperatures are strictly decreasing. -/
lemma tableTemp_strict : ∀ j < 9, tableTemp (j + 1) < tableTemp j := by
  decide

/-- Climbing lemma for the scan loop: starting anywhere at or below the
target interval's upper index, the loop stops exactly at `j + 1` when
`tableAdc j < analogValue ≤ tableAdc (j+1)`. -/
lemma lookupLoop_climb (analogValue : Int) (j : Nat) (h9 : j + 1 ≤ 9)
    (hlo : tableAdc j < analogValue) (hhi : analogValue ≤ tableAdc (j + 1)) :
    ∀ d i, i + d = j + 1 → lookupLoop analogValue (10 - i) i = j + 1 := by
  intro d
  induction d with
  | zero =>
    intro i h
    have hi : i = j + 1 := by omega
    subst hi
    have hfuel : 10 - (j + 1) = (9 - (j + 1)) + 1 := by omega
    rw [hfuel, lookupLoop]
    rw [if_neg]
    intro hc
    exact absurd hc.1 (not_lt.mpr hhi)
  | succ d ih =>
    intro i h
    have hij : i ≤ j := by omega
    have hadc : tableAdc i < analogValue := by
      rcases eq_or_lt_of_le hij with he | hl
      · rw [he]; exact hlo
      · exact lt_trans (tableAdc_strict i (by omega) j (by omega) hl) hlo
    have hfuel : 10 - i = (10 - (i + 1)) + 1 := by omega
    rw [hfuel, lookupLoop]
    rw [if_pos ⟨hadc, by rw [tempTableSize_eq]; omega⟩]
    exact ih (i + 1) (by omega)

/-- The index the scan selects for a value in the interval
`(tableAdc j, tableAdc (j+1)]`. -/
lemma lookupIdx_between (analogValue : Int) (j : Nat) (h9 : j + 1 ≤ 9)
    (hlo : tableAdc j < analogValue) (hhi : analogValue ≤ tableAdc (j + 1)) :
    lookupIdx analogValue = j + 1 := by
  have h := lookupLoop_climb analogValue j h9 hlo hhi (j + 1) 0 (by omega)
  simpa [lookupIdx, tempTableSize_eq] using h

/-- The exact linear-interpolation formula between entries `j` and `j+1`
(the spec's `temp_low + (raw − adc_low)·(temp_high − temp_low)/(adc_high −
adc_low)` with `low = j`, `high = j+1`). -/
def linearInterp (j : Nat) (raw : Int) : Rat :=
  (tableTemp j : Rat) + ((raw : Rat) - (tableAdc j : Rat)) *
    ((tableTemp (j + 1) : Rat) - (tableTemp j : Rat)) /
      ((tableAdc (j + 1) : Rat) - (tableAdc j : Rat))

/-- `interpolate` computes exactly the linear formula for values in the
interval `(tableAdc j, tableAdc (j+1)]`. -/
lemma interpolate_eq_formula (analogValue : Int) (j : Nat) (h9 : j + 1 ≤ 9)
    (hlo : tableAdc j < analogValue) (hhi : analogValue ≤ tableAdc (j + 1)) :
    interpolate analogValue = some (linearInterp j analogValue) := by
  have hg1 : tableGet ((j + 1 : Nat) : Int) = some (tableAdc (j + 1), tableTemp (j + 1)) := by
    unfold tableGet
    rw [if_pos]
    · simp
    · constructor
      · omega
      · rw [tempTableSize_eq]; push_cast; omega
  have hg0 : tableGet (((j + 1 : Nat) : Int) - 1) = some (tableAdc j, tableTemp j) := by
    have he : ((j + 1 : Nat) : Int) - 1 = ((j : Nat) : Int) := by push_cast; ring
    rw [he]
    unfold tableGet
    rw [if_pos]
    · simp
    · constructor
      · omega
      · rw [tempTableSize_eq]; push_cast; omega
  unfold interpolate
  rw [lookupIdx_between analogValue j h9 hlo hhi]
  simp only [hg1, hg0]
  rfl

/-- Pure algebra: a convex interpolation between `t1` (left) and `t2 < t1`
(right) lies between them. -/
lemma interp_between (a b r t1 t2 : Rat) (har : a < r) (hrb : r < b) (ht : t2 < t1) :
    t2 ≤ t1 + (r - a) * (t2 - t1) / (b - a) ∧
      t1 + (r - a) * (t2 - t1) / (b - a) ≤ t1 := by
  have hba : (0 : Rat) < b - a := by linarith
  have hs0 : (0 : Rat) ≤ (r - a) / (b - a) := div_nonneg (by linarith) (by linarith)
  have hs1 : (r - a) / (b - a) ≤ 1 := by rw [div_le_one hba]; linarith
  have hrw : (r - a) * (t2 - t1) / (b - a) = ((r - a) / (b - a)) * (t2 - t1) := by ring
  rw [hrw]
  constructor
  · nlinarith [mul_nonneg (by linarith : (0 : Rat) ≤ 1 - (r - a) / (b - a))
      (by linarith : (0 : Rat) ≤ t1 - t2)]
  · nlinarith [mul_nonneg hs0 (by linarith : (0 : Rat) ≤ t1 - t2)]

/-- C7 counterexample: the raw value 1 equals the first table entry's ADC
value, but the lookup does not return that entry's temperature (300 °C) —
it performs the out-of-bounds `tempTable[-1]` access instead. -/
theorem interpolate_first_breakpoint_mismatch :
    tableAdc 0 = 1 ∧ interpolate (tableAdc 0) ≠ some ((tableTemp 0 : Rat)) := by
  with_unfolding_all decide

/-- C7 (amended): for every raw ADC value strictly between two adjacent
table entries the returned temperature is exactly the linear interpolation
and lies between the two entries' temperatures; and at every interior
breakpoint (entries 1–8; entry 0 is the counterexample above, entry 9 is
rejected by the range check) the returned temperature equals the table
entry. -/
theorem interpolate_linear_between_entries :
    (∀ (j : Nat) (raw : Int), j + 1 ≤ 9 → tableAdc j < raw → raw < tableAdc (j + 1) →
      interpolate raw = some (linearInterp j raw) ∧
      (tableTemp (j + 1) : Rat) ≤ linearInterp j raw ∧
      linearInterp j raw ≤ (tableTemp j : Rat)) ∧
    (∀ j : Nat, j < 9 → 1 ≤ j → interpolate (tableAdc j) = some ((tableTemp j : Rat))) := by
  constructor
  · intro j raw h9 hlo hhi
    refine ⟨interpolate_eq_formula raw j h9 hlo (le_of_lt hhi), ?_⟩
    have hloQ : (tableAdc j : Rat) < (raw : Rat) := by exact_mod_cast hlo
    have hhiQ : (raw : Rat) < (tableAdc (j + 1) : Rat) := by exact_mod_cast hhi
    have htQ : (tableTemp (j + 1) : Rat) < (tableTemp j : Rat) := by
      exact_mod_cast tableTemp_strict j (by omega)
    exact interp_between (tableAdc j : Rat) (tableAdc (j + 1) : Rat) (raw : Rat)
      (tableTemp j : Rat) (tableTemp (j + 1) : Rat) hloQ hhiQ htQ
  · with_unfolding_all decide

/-- C7 witness: raw 250 lies strictly between entries 1 (ADC 200, 250 °C)
and 2 (ADC 300, 200 °C); raw 300 is the breakpoint of entry 2. -/
theorem interpolate_linear_between_entries_witness :
    interpolate 250 = some (linearInterp 1 250) ∧
    (tableTemp 2 : Rat) ≤ linearInterp 1 250 ∧
    linearInterp 1 250 ≤ (tableTemp 1 : Rat) ∧
    interpolate (tableAdc 2) = some ((tableTemp 2 : Rat)) := by
  have h := interpolate_linear_between_entries
  have h1 := h.1 1 250 (by decide) (by decide) (by decide)
  exact ⟨h1.1, h1.2.1, h1.2.2, h.2 2 (by decide) (by decide)⟩

/-! ## Section aggregation: fallback order -/

/-- The per-segment readings a section sees this tick: active flag and
cached temperature (inside the rate-limit window these are exactly the
values `readTemperature` returns). -/
def sectionReads (st : SysState) (idxs : List Nat) : List (Bool × Rat) :=
  idxs.map (fun i => (st.activeSegments.getD i false, st.cachedTemperatures.getD i 0))

/-- Modelled from the spec (§4.4): the aggregation fallback order — mean of
active non-sentinel readings if any, else mean of all non-sentinel
readings, else the fixed 25 °C default. -/
def specRepresentativeTemp (reads : List (Bool × Rat)) : Rat :=
  let activeValid := reads.filter (fun p => p.1 && !decide (p.2 = -999))
  let allValid := reads.filter (fun p => !decide (p.2 = -999))
  if activeValid.length > 0 then (activeValid.map Prod.snd).sum / (activeValid.length : Rat)
  else if allValid.length > 0 then (allValid.map Prod.snd).sum / (allValid.length : Rat)
  else 25

/-- Inside the rate-limit window the aggregation loop accumulates exactly
the filtered sums and counts of the cached section readings, without
touching the state. -/
lemma utpLoop_cacheHit (now : Nat) (analog : Int → Int) :
    ∀ (L : List Nat) (st : SysState) (sA : Rat) (cA : Nat) (sAll : Rat) (cAll : Nat),
      (∀ i ∈ L, i < 16 ∧ usub32 now (st.lastReadTime.getD i 0) < readInterval) →
      utpLoop now analog L (st, sA, cA, sAll, cAll) =
        (st,
         sA + (((sectionReads st L).filter (fun p => p.1 && !decide (p.2 = -999))).map Prod.snd).sum,
         cA + ((sectionReads st L).filter (fun p => p.1 && !decide (p.2 = -999))).length,
         sAll + (((sectionReads st L).filter (fun p => !decide (p.2 = -999))).map Prod.snd).sum,
         cAll + ((sectionReads st L).filter (fun p => !decide (p.2 = -999))).length) := by
  intro L
  induction L with
  | nil => intro st sA cA sAll cAll _; simp [utpLoop, sectionReads]
  | cons i rest ih =>
    intro st sA cA sAll cAll h
    obtain ⟨hi, hfresh⟩ := h i (by simp)
    rw [utpLoop, readTemperature_cacheHit now analog st i hi hfresh]
    simp only
    rw [ih st _ _ _ _ (fun j hj => h j (by simp [hj]))]
    by_cases ha : st.activeSegments.getD i false
    all_goals by_cases hv : st.cachedTemperatures.getD i 0 = -999
    all_goals simp only [List.getD, List.get?_eq_getElem?] at ha hv
    all_goals simp [sectionReads, ha, hv, Prod.ext_iff, add_assoc, add_comm, add_left_comm]

/-- C8: `updateTemperaturePWM` chooses its representative temperature by
the exact fallback order (active-valid mean, else all-valid mean, else
25 °C), reports it, and drives the section's PWM pin with its mapped
value; stated for any state whose section readings come from the cache
window (which realizes every possible reading pattern). -/
theorem updateTemperaturePWM_fallback_order (st : SysState) (now : Nat)
    (analog : Int → Int) (sec : Nat) (hsec : sec < 4)
    (hfresh : ∀ i ∈ List.range' (4 * sec) 4,
      usub32 now (st.lastReadTime.getD i 0) < readInterval) :
    (updateTemperaturePWM now analog sec (4 * sec) (4 * sec + 3) st).1 = st ∧
    Event.printQ (specRepresentativeTemp (sectionReads st (List.range' (4 * sec) 4)))
      ∈ (updateTemperaturePWM now analog sec (4 * sec) (4 * sec + 3) st).2 ∧
    Event.analogWrite (pwmOutPins.getD sec 0)
      (pwmValueOf st (specRepresentativeTemp (sectionReads st (List.range' (4 * sec) 4))))
      ∈ (updateTemperaturePWM now analog sec (4 * sec) (4 * sec + 3) st).2 := by
  have hrange : (4 * sec + 3) + 1 - (4 * sec) = 4 := by omega
  have hmem : ∀ i ∈ List.range' (4 * sec) 4,
      i < 16 ∧ usub32 now (st.lastReadTime.getD i 0) < readInterval := by
    intro i hi
    have hb : 4 * sec ≤ i ∧ i < 4 * sec + 4 := by
      have := List.mem_range'_1.mp hi
      omega
    exact ⟨by omega, hfresh i hi⟩
  unfold updateTemperaturePWM
  rw [hrange]
  rw [utpLoop_cacheHit now analog (List.range' (4 * sec) 4) st 0 0 0 0 hmem]
  simp only [zero_add]
  by_cases hA : (List.filter (fun p => p.1 && !decide (p.2 = -999))
      (sectionReads st (List.range' (4 * sec) 4))).length > 0
  · have hsp : specRepresentativeTemp (sectionReads st (List.range' (4 * sec) 4)) =
        ((List.filter (fun p => p.1 && !decide (p.2 = -999))
            (sectionReads st (List.range' (4 * sec) 4))).map Prod.snd).sum /
          ((List.filter (fun p => p.1 && !decide (p.2 = -999))
            (sectionReads st (List.range' (4 * sec) 4))).length : Rat) := by
      unfold specRepresentativeTemp
      rw [if_pos hA]
    rw [if_pos hA, hsp]
    exact ⟨rfl, by simp [utpFinish], by simp [utpFinish]⟩
  · by_cases hG : (List.filter (fun p => !decide (p.2 = -999))
        (sectionReads st (List.range' (4 * sec) 4))).length > 0
    · have hsp : specRepresentativeTemp (sectionReads st (List.range' (4 * sec) 4)) =
          ((List.filter (fun p => !decide (p.2 = -999))
              (sectionReads st (List.range' (4 * sec) 4))).map Prod.snd).sum /
            ((List.filter (fun p => !decide (p.2 = -999))
              (sectionReads st (List.range' (4 * sec) 4))).length : Rat) := by
        unfold specRepresentativeTemp
        rw [if_neg hA, if_pos hG]
      rw [if_neg hA, if_pos hG, hsp]
      exact ⟨rfl, by simp [utpFinish], by simp [utpFinish]⟩
    · have hsp : specRepresentativeTemp (sectionReads st (List.range' (4 * sec) 4)) = 25 := by
        unfold specRepresentativeTemp
        rw [if_neg hA, if_neg hG]
      rw [if_neg hA, if_neg hG, hsp]
      exact ⟨rfl, by simp [utpFinish], by simp [utpFinish]⟩

/-- C8 witness state: section 0 has segments {0 active/100 °C,
1 inactive/200 °C, 2 active/sentinel, 3 inactive/50 °C}; the active-valid
mean is 100. -/
def stC8 : SysState :=
  { initialState with
      activeSegments := [true, false, true, false] ++ List.replicate 12 false
      cachedTemperatures := [(100 : Rat), 200, -999, 50] ++ List.replicate 12 0 }

/-- C8 witness: the fallback choice on `stC8`'s section 0 is the
active-valid mean 100 °C. -/
theorem updateTemperaturePWM_fallback_order_witness :
    (updateTemperaturePWM 0 (fun _ => 0) 0 0 3 stC8).1 = stC8 ∧
    Event.printQ 100 ∈ (updateTemperaturePWM 0 (fun _ => 0) 0 0 3 stC8).2 ∧
    Event.analogWrite 5 (pwmValueOf stC8 100)
      ∈ (updateTemperaturePWM 0 (fun _ => 0) 0 0 3 stC8).2 := by
  have h := updateTemperaturePWM_fallback_order stC8 0 (fun _ => 0) 0 (by decide)
    (by with_unfolding_all decide)
  have hspec : specRepresentativeTemp (sectionReads stC8 (List.range' (4 * 0) 4)) = 100 := by
    with_unfolding_all decide
  have hpin : pwmOutPins.getD 0 0 = 5 := by decide
  obtain ⟨ha, hb, hc⟩ := h
  rw [hspec] at hb hc
  rw [hpin] at hc
  exact ⟨ha, hb, hc⟩

/-! ## Command validation (C9) -/

/-- C9: `ON n` / `OFF n` with the parsed segment number outside 1–16 are
rejected with the "Invalid segment number" error and leave the whole state
— active flags, relays, cache, PID state — untouched. -/
theorem serial_on_off_out_of_range_rejected (now : Nat) (analog : Int → Int)
    (s : String) (st : SysState) (htrim : s.trim = s) :
    (strStarts s "ON" = true → s ≠ "ON ALL" →
        ¬ (1 ≤ arduinoToInt (substrFrom s 3) ∧ arduinoToInt (substrFrom s 3) ≤ 16) →
        (processSerialCommand now analog s st).1 = st ∧
        Event.printS "Error: Invalid segment number. Use HELP to see commands."
          ∈ (processSerialCommand now analog s st).2) ∧
    (strStarts s "OFF" = true → s ≠ "OFF ALL" →
        ¬ (1 ≤ arduinoToInt (substrFrom s 4) ∧ arduinoToInt (substrFrom s 4) ≤ 16) →
        (processSerialCommand now analog s st).1 = st ∧
        Event.printS "Error: Invalid segment number. Use HELP to see commands."
          ∈ (processSerialCommand now analog s st).2) := by
  constructor
  · intro hON hne hinv
    have hpre : "ON".data <+: s.data := by
      have h' : ("ON".data).isPrefixOf s.data = true := hON
      rwa [List.isPrefixOf_iff_prefix] at h'
    obtain ⟨rest, hrest⟩ := hpre
    have hdata : s.data = 'O' :: 'N' :: rest := by rw [← hrest]; rfl
    have h1 : ¬ (s = "DEBUG ON") := fun he => absurd (he ▸ hON) (by decide)
    have h2 : ¬ (s = "DEBUG OFF") := fun he => absurd (he ▸ hON) (by decide)
    have h3 : ¬ (s = "STATUS") := fun he => absurd (he ▸ hON) (by decide)
    have h4 : ¬ (strStarts s "SET_PWM_RANGE" = true) := by
      unfold strStarts
      rw [hdata]
      simp [List.isPrefixOf]
    have h6 : ¬ (s = "OFF ALL") := fun he => absurd (he ▸ hON) (by decide)
    have hps : processSerialCommand now analog s st =
        (st, [Event.printS "Received command: \"", Event.printS s, Event.printS "\"",
              Event.printS "Error: Invalid segment number. Use HELP to see commands."]) := by
      simp only [processSerialCommand]
      rw [htrim]
      rw [if_neg h1, if_neg h2, if_neg h3, if_neg h4, if_neg hne, if_neg h6,
        if_pos hON, if_neg hinv]
      rfl
    rw [hps]
    exact ⟨rfl, by simp⟩
  · intro hOFF hne hinv
    have hpre : "OFF".data <+: s.data := by
      have h' : ("OFF".data).isPrefixOf s.data = true := hOFF
      rwa [List.isPrefixOf_iff_prefix] at h'
    obtain ⟨rest, hrest⟩ := hpre
    have hdata : s.data = 'O' :: 'F' :: 'F' :: rest := by rw [← hrest]; rfl
    have h1 : ¬ (s = "DEBUG ON") := fun he => absurd (he ▸ hOFF) (by decide)
    have h2 : ¬ (s = "DEBUG OFF") := fun he => absurd (he ▸ hOFF) (by decide)
    have h3 : ¬ (s = "STATUS") := fun he => absurd (he ▸ hOFF) (by decide)
    have h4 : ¬ (strStarts s "SET_PWM_RANGE" = true) := by
      unfold strStarts
      rw [hdata]
      simp [List.isPrefixOf]
    have h5 : ¬ (s = "ON ALL") := fun he => absurd (he ▸ hOFF) (by decide)
    have h7 : ¬ (strStarts s "ON" = true) := by
      unfold strStarts
      rw [hdata]
      simp [List.isPrefixOf]
    have hps : processSerialCommand now analog s st =
        (st, [Event.printS "Received command: \"", Event.printS s, Event.printS "\"",
              Event.printS "Error: Invalid segment number. Use HELP to see commands."]) := by
      simp only [processSerialCommand]
      rw [htrim]
      rw [if_neg h1, if_neg h2, if_neg h3, if_neg h4, if_neg h5, if_neg hne,
        if_neg h7, if_pos hOFF, if_neg hinv]
      rfl
    rw [hps]
    exact ⟨rfl, by simp⟩

/-- C9 witness: `ON 0`, `ON 17`, `OFF 0`, `OFF 17` all leave the initial
state unchanged and emit the error message. -/
theorem serial_on_off_out_of_range_rejected_witness :
    ((processSerialCommand 0 (fun _ => 0) "ON 0" initialState).1 = initialState ∧
      Event.printS "Error: Invalid segment number. Use HELP to see commands."
        ∈ (processSerialCommand 0 (fun _ => 0) "ON 0" initialState).2) ∧
    ((processSerialCommand 0 (fun _ => 0) "ON 17" initialState).1 = initialState ∧
      Event.printS "Error: Invalid segment number. Use HELP to see commands."
        ∈ (processSerialCommand 0 (fun _ => 0) "ON 17" initialState).2) ∧
    ((processSerialCommand 0 (fun _ => 0) "OFF 0" initialState).1 = initialState ∧
      Event.printS "Error: Invalid segment number. Use HELP to see commands."
        ∈ (processSerialCommand 0 (fun _ => 0) "OFF 0" initialState).2) ∧
    ((processSerialCommand 0 (fun _ => 0) "OFF 17" initialState).1 = initialState ∧
      Event.printS "Error: Invalid segment number. Use HELP to see commands."
        ∈ (processSerialCommand 0 (fun _ => 0) "OFF 17" initialState).2) :=
  ⟨(serial_on_off_out_of_range_rejected 0 (fun _ => 0) "ON 0" initialState
      (by with_unfolding_all decide)).1 (by decide) (by decide)
      (by with_unfolding_all decide),
   (serial_on_off_out_of_range_rejected 0 (fun _ => 0) "ON 17" initialState
      (by with_unfolding_all decide)).1 (by decide) (by decide)
      (by with_unfolding_all decide),
   (serial_on_off_out_of_range_rejected 0 (fun _ => 0) "OFF 0" initialState
      (by with_unfolding_all decide)).2 (by decide) (by decide)
      (by with_unfolding_all decide),
   (serial_on_off_out_of_range_rejected 0 (fun _ => 0) "OFF 17" initialState
      (by with_unfolding_all decide)).2 (by decide) (by decide)
      (by with_unfolding_all decide)⟩

/-! ## Tripped-state behaviour of the main loop (C2, C3) -/

/-- A tripped state for the counterexample ticks. -/
def stTripped : SysState := { initialState with thermalSafetyTriggered := true }

/-- While tripped, the guarded phase of `loop()` only prints the banner. -/
lemma loopMain_tripped (env : Env) (st : SysState)
    (h : st.thermalSafetyTriggered = true) :
    loopMain env st =
      (st, [Event.printS "System in thermal safety state. Use RESET_SAFETY command to reset."],
       false) := by
  unfold loopMain
  rw [if_neg (by simp [h])]

/-- `processExternalCommand "RESET_SAFETY"` clears the latch for any
state. -/
lemma processExternalCommand_reset (now : Nat) (analog : Int → Int) (st : SysState) :
    processExternalCommand now analog "RESET_SAFETY" st =
      ({ st with thermalSafetyTriggered := false },
       [Event.printS "Thermal safety state reset. System ready for use.",
        Event.printS "Thermal safety state reset (Duet)."]) := by
  simp only [processExternalCommand]
  rw [show ("RESET_SAFETY" : String).trim = "RESET_SAFETY" from by with_unfolding_all decide]
  rw [if_neg (by decide), if_neg (by decide), if_neg (by decide), if_neg (by decide),
    if_pos rfl]
  rfl

/-- C2 counterexample: a tick taken while tripped with a `RESET_SAFETY`
line pending on the local Serial channel neither consumes nor answers it —
the latch stays set, the state is unchanged, and the only output is the
banner. -/
theorem tripped_tick_ignores_local_serial :
    (loopTick ⟨0, fun _ => 0, some "RESET_SAFETY", none⟩ stTripped).2.2 = false ∧
    (loopTick ⟨0, fun _ => 0, some "RESET_SAFETY", none⟩ stTripped).1 = stTripped ∧
    (loopTick ⟨0, fun _ => 0, some "RESET_SAFETY", none⟩ stTripped).2.1 =
      [Event.printS "System in thermal safety state. Use RESET_SAFETY command to reset."] := by
  with_unfolding_all decide

/-- C2 (amended): while the latch is tripped, every tick skips PID and
actuation entirely and never consumes the local Serial channel; only the
external (Serial1/Duet) channel remains live — its commands are still
processed, and `RESET_SAFETY` arriving there is accepted. -/
theorem tripped_tick_external_channel_only (env : Env) (st : SysState)
    (htrip : st.thermalSafetyTriggered = true) :
    (loopTick env st).2.2 = false ∧
    (loopTick { env with serial1 := none } st).1 = st ∧
    (loopTick { env with serial1 := some "RESET_SAFETY" } st).1.thermalSafetyTriggered
      = false ∧
    (∀ line, loopTick { env with serial1 := some line } st =
      ((processExternalCommand env.now env.analog line.trim st).1,
       Event.printS "System in thermal safety state. Use RESET_SAFETY command to reset."
         :: Event.printS "Recebido da Duet: " :: Event.printS line.trim
         :: (processExternalCommand env.now env.analog line.trim st).2,
       false)) := by
  obtain ⟨now, analog, ser, ser1⟩ := env
  refine ⟨?_, ?_, ?_, ?_⟩
  · unfold loopTick
    rw [loopMain_tripped _ _ htrip]
    cases ser1 <;> rfl
  · unfold loopTick
    rw [loopMain_tripped _ _ htrip]
  · unfold loopTick
    rw [loopMain_tripped _ _ htrip]
    simp only
    rw [show ("RESET_SAFETY" : String).trim = "RESET_SAFETY" from by with_unfolding_all decide]
    rw [processExternalCommand_reset]
  · intro line
    unfold loopTick
    rw [loopMain_tripped _ _ htrip]
    simp

/-- C2 witness: a tripped tick with no pending lines changes nothing and
consumes nothing; a tripped tick with `RESET_SAFETY` on the external
channel clears the latch. -/
theorem tripped_tick_external_channel_only_witness :
    (loopTick ⟨0, fun _ => 0, none, none⟩ stTripped).2.2 = false ∧
    (loopTick ⟨0, fun _ => 0, none, none⟩ stTripped).1 = stTripped ∧
    (loopTick ⟨0, fun _ => 0, none, some "RESET_SAFETY"⟩ stTripped).1.thermalSafetyTriggered
      = false := by
  have h := tripped_tick_external_channel_only ⟨0, fun _ => 0, none, none⟩ stTripped rfl
  exact ⟨h.1, h.2.1, h.2.2.1⟩

/-! ## Section reporting every tick (C3) -/

/-- `updateTemperaturePWM` always ends in an analog write on the section's
output pin, whatever the state. -/
lemma utp_has_analogWrite (now : Nat) (analog : Int → Int)
    (sec a b : Nat) (st : SysState) :
    ∃ v, Event.analogWrite (pwmOutPins.getD sec 0) v
      ∈ (updateTemperaturePWM now analog sec a b st).2 := by
  have hf : ∀ (ev : List Event) (avg : Rat) (st1 : SysState),
      Event.analogWrite (pwmOutPins.getD sec 0) (pwmValueOf st1 avg)
        ∈ (utpFinish sec ev avg st1).2 := by
    intro ev avg st1
    simp [utpFinish]
  simp only [updateTemperaturePWM]
  split_ifs <;> exact ⟨_, hf _ _ _⟩

/-- Events accumulated by the section fold are never dropped. -/
lemma foldl_uasStep_mono (now : Nat) (analog : Int → Int) :
    ∀ (L : List Nat) (acc : SysState × List Event) (e : Event),
      e ∈ acc.2 → e ∈ (L.foldl (uasStep now analog) acc).2 := by
  intro L
  induction L with
  | nil => intro acc e he; exact he
  | cons j rest ih =>
    intro acc e he
    exact ih _ e (by simp [uasStep, he])

/-- Every section in the fold list gets its analog write. -/
lemma foldl_uasStep_has (now : Nat) (analog : Int → Int) :
    ∀ (L : List Nat) (acc : SysState × List Event) (sec : Nat), sec ∈ L →
      ∃ v, Event.analogWrite (pwmOutPins.getD sec 0) v
        ∈ (L.foldl (uasStep now analog) acc).2 := by
  intro L
  induction L with
  | nil => intro acc sec h; cases h
  | cons j rest ih =>
    intro acc sec h
    rcases List.mem_cons.mp h with he | hm
    · subst he
      obtain ⟨v, hv⟩ := utp_has_analogWrite now analog sec (sec * 4) (sec * 4 + 3) acc.1
      refine ⟨v, foldl_uasStep_mono now analog rest _ _ ?_⟩
      simp only [uasStep, List.mem_append]
      exact Or.inl (Or.inr hv)
    · exact ih _ sec hm

/-- `updateAllSections` drives all four section pins. -/
lemma updateAllSections_has_analogWrite (now : Nat) (analog : Int → Int)
    (st : SysState) (sec : Nat) (hsec : sec < 4) :
    ∃ v, Event.analogWrite (pwmOutPins.getD sec 0) v
      ∈ (updateAllSections now analog st).2 :=
  foldl_uasStep_has now analog (List.range 4) (st, []) sec (List.mem_range.mpr hsec)

/-- C3 counterexample: a tick taken in the tripped state drives no section
analog channel at all — the whole event trace is the warning banner, with
no `analogWrite` in it. -/
theorem tripped_tick_reports_nothing :
    (loopTick ⟨0, fun _ => 0, none, none⟩ stTripped).2.1 =
      [Event.printS "System in thermal safety state. Use RESET_SAFETY command to reset."] := by
  with_unfolding_all decide

/-- The control phase always contains each section's analog write. -/
lemma loopControlPhase_has_analogWrite (env : Env) (st : SysState)
    (sec : Nat) (hsec : sec < 4) :
    ∃ v, Event.analogWrite (pwmOutPins.getD sec 0) v
      ∈ (loopControlPhase env st).2 := by
  obtain ⟨v, hv⟩ := updateAllSections_has_analogWrite env.now env.analog st sec hsec
  refine ⟨v, ?_⟩
  simp only [loopControlPhase, List.mem_append]
  exact Or.inl (Or.inl (Or.inl (Or.inl hv)))

/-- The untripped branch of `loop()`, written without the lets. -/
lemma loopMain_untripped (env : Env) (st : SysState)
    (h : st.thermalSafetyTriggered = false) :
    loopMain env st =
      ((loopControlPhase env (loopSerialPhase env st).1).1,
       (loopSerialPhase env st).2.1 ++ (loopControlPhase env (loopSerialPhase env st).1).2,
       (loopSerialPhase env st).2.2) := by
  unfold loopMain
  rw [if_pos (by simp [h])]

/-- C3 (amended): on every control tick that begins with the safety latch
not tripped, each of the four sections' outbound analog channels is driven
(with the value `updateTemperaturePWM` maps from the aggregate
temperature); while tripped the reporting pass is skipped. -/
theorem untripped_tick_reports_all_sections (env : Env) (st : SysState)
    (h : st.thermalSafetyTriggered = false) (sec : Nat) (hsec : sec < 4) :
    ∃ v, Event.analogWrite (pwmOutPins.getD sec 0) v ∈ (loopTick env st).2.1 := by
  obtain ⟨v, hv⟩ := loopControlPhase_has_analogWrite env (loopSerialPhase env st).1 sec hsec
  unfold loopTick
  rw [loopMain_untripped env st h]
  cases henv : env.serial1 with
  | none =>
    simp only [List.mem_append]
    exact ⟨v, Or.inr hv⟩
  | some l =>
    refine ⟨v, ?_⟩
    simp only [List.mem_append]
    exact Or.inl (Or.inl (Or.inr hv))

/-- C3 witness: on an untripped tick from the initial state, section 2's
output pin is driven. -/
theorem untripped_tick_reports_all_sections_witness :
    initialState.thermalSafetyTriggered = false ∧
    (∃ v, Event.analogWrite (pwmOutPins.getD 2 0) v
      ∈ (loopTick ⟨0, fun _ => 0, none, none⟩ initialState).2.1) :=
  ⟨rfl, untripped_tick_reports_all_sections ⟨0, fun _ => 0, none, none⟩ initialState
    rfl 2 (by decide)⟩

/-- C1 failing input: every segment active, every cache entry fresh at
`t = 5000`, segment 0 reading 130 °C. -/
def stC1hot : SysState :=
  { initialState with
      activeSegments := List.replicate 16 true
      relays := List.replicate 16 true
      cachedTemperatures := (130 : Rat) :: List.replicate 15 25
      lastReadTime := List.replicate 16 5000 }

/-- C1 boundary input: every segment reading exactly 120 °C (the claimed
trip threshold). -/
def stC1at120 : SysState :=
  { initialState with
      activeSegments := List.replicate 16 true
      cachedTemperatures := List.replicate 16 (120 : Rat)
      lastReadTime := List.replicate 16 5000 }

/-- C1: what the safety scan actually does.  At a 130 °C reading on
segment 0 it sets the latch and clears every `active` flag, but it drives
every relay pin LOW (`false`) — the electrically ON state for the
active-low relay board — not HIGH as the claim requires; and at a reading
of exactly 120 °C (the claimed "at or above the ceiling" boundary) it does
not trip at all, because the source compares with strict `>`. -/
theorem checkThermalSafety_trip_drives_relays_low :
    ((checkThermalSafety 5000 (fun _ => 0) stC1hot).1.thermalSafetyTriggered = true ∧
     (checkThermalSafety 5000 (fun _ => 0) stC1hot).1.activeSegments = List.replicate 16 false ∧
     (checkThermalSafety 5000 (fun _ => 0) stC1hot).1.relays = List.replicate 16 false) ∧
    checkThermalSafety 5000 (fun _ => 0) stC1at120 = (stC1at120, []) := by
  constructor
  · with_unfolding_all decide
  · exact ctsLoop_no_trip 5000 (fun _ => 0) (List.range 16) stC1at120
      (by with_unfolding_all decide)

/-- C4: on the accepted raw ADC value `1` — which equals the first table
entry's ADC value — the scan loop stops at index 0 and the interpolation
reads `tempTable[-1]`, an out-of-bounds access (modelled by `none` /
the `oobAccess` poison flag), instead of clamping. -/
theorem readTemperature_oob_at_first_entry :
    lookupIdx 1 = 0 ∧ interpolate 1 = none ∧
    (readTemperature 5000 (fun _ => 1) (tempSensors.getD 0 0) initialState).state.oobAccess
      = true := by
  refine ⟨by decide, by with_unfolding_all decide, by with_unfolding_all decide⟩

/-- C5 failing input: a second `calculatePID` call for segment 0 at the
same `millis()` value (5000) with the same error (10) as the stored
`pidLastError`. -/
def stC5 : SysState :=
  { initialState with
      pidLastUpdate := (List.replicate 16 (0 : Nat)).set 0 5000
      pidLastError := (List.replicate 16 (0 : Rat)).set 0 10 }

/-- C5: `calculatePID` has no `deltaTime == 0` guard: called twice at the
same timestamp with an unchanged error it computes `0.0 / 0.0` in the
derivative term and returns NaN — not a well-defined actuation in
`[0, 1]`. -/
theorem calculatePID_zero_dt_nan :
    (calculatePID 5000 0 90 100 stC5).1 = FVal.nan := by
  with_unfolding_all decide

/-- C6: with the default PWM configuration (`pwmMinValue = 0`,
`pwmMaxValue = 255`), a `pulseIn` timeout (which yields `0`) passes the
validation `pwmValue < pwmMinValue || pwmValue > pwmMaxValue` and is
mapped to `tempMin` (0 °C) — the sentinel −999 is not returned. -/
theorem readTargetTemperature_timeout_default :
    initialState.pwmMinValue = 0 ∧ initialState.pwmMaxValue = 255 ∧
    (readTargetTemperature 0 initialState).1 = 0 ∧
    (readTargetTemperature 0 initialState).1 ≠ -999 := by
  with_unfolding_all decide

/-- C10: an out-of-range sample advances the timestamp before the range
check, stores the sentinel −999 in the cache, and every call within the
next `readInterval` window returns −999 from the cache without a new
analog read. -/
theorem readTemperature_error_poisons_cache
    (st : SysState) (idx t1 t2 : Nat) (analog1 analog2 : Int → Int)
    (hwf : st.lastReadTime.length = 16 ∧ st.cachedTemperatures.length = 16)
    (hidx : idx < 16)
    (hstale : ¬ usub32 t1 (st.lastReadTime.getD idx 0) < readInterval)
    (hrange : analog1 (tempSensors.getD idx 0) ≤ 0 ∨ analog1 (tempSensors.getD idx 0) ≥ 1023)
    (hwin : usub32 t2 t1 < readInterval) :
    (readTemperature t1 analog1 (tempSensors.getD idx 0) st).value = -999 ∧
    (readTemperature t1 analog1 (tempSensors.getD idx 0) st).didAnalogRead = true ∧
    (readTemperature t2 analog2 (tempSensors.getD idx 0)
        (readTemperature t1 analog1 (tempSensors.getD idx 0) st).state).value = -999 ∧
    (readTemperature t2 analog2 (tempSensors.getD idx 0)
        (readTemperature t1 analog1 (tempSensors.getD idx 0) st).state).didAnalogRead = false ∧
    (readTemperature t2 analog2 (tempSensors.getD idx 0)
        (readTemperature t1 analog1 (tempSensors.getD idx 0) st).state).state =
      (readTemperature t1 analog1 (tempSensors.getD idx 0) st).state := by
  have hlen : idx < st.lastReadTime.length := by omega
  have hlenc : idx < st.cachedTemperatures.length := by omega
  have h1 : readTemperature t1 analog1 (tempSensors.getD idx 0) st =
      ⟨-999,
       { st with lastReadTime := st.lastReadTime.set idx t1,
                 cachedTemperatures := st.cachedTemperatures.set idx (-999) }, true⟩ := by
    unfold readTemperature
    rw [findSensorIndex_tempSensors idx hidx]
    rw [if_neg (by omega : ¬ ((idx : Int) = -1))]
    simp only [Int.toNat_natCast]
    rw [if_neg hstale, if_pos hrange]
  have hgt : (st.lastReadTime.set idx t1).getD idx 0 = t1 := by
    simp [List.getD, List.getElem?_set, hlen]
  have hgc : (st.cachedTemperatures.set idx (-999 : Rat)).getD idx 0 = -999 := by
    simp [List.getD, List.getElem?_set, hlenc]
  rw [h1]
  have h2 := readTemperature_cacheHit t2 analog2
    { st with lastReadTime := st.lastReadTime.set idx t1,
              cachedTemperatures := st.cachedTemperatures.set idx (-999) }
    idx hidx
    (by show usub32 t2 ((st.lastReadTime.set idx t1).getD idx 0) < readInterval
        rw [hgt]; exact hwin)
  rw [h2]
  simpa using hgc

/-- C10 witness: segment 3 sampled out of range (raw 1023) at `t = 5000`
on the initial state, re-read at `t = 5500`. -/
theorem readTemperature_error_poisons_cache_witness :
    (readTemperature 5000 (fun _ => 1023) (tempSensors.getD 3 0) initialState).value = -999 ∧
    (readTemperature 5000 (fun _ => 1023) (tempSensors.getD 3 0) initialState).didAnalogRead
      = true ∧
    (readTemperature 5500 (fun _ => 77) (tempSensors.getD 3 0)
        (readTemperature 5000 (fun _ => 1023) (tempSensors.getD 3 0) initialState).state).value
      = -999 ∧
    (readTemperature 5500 (fun _ => 77) (tempSensors.getD 3 0)
        (readTemperature 5000 (fun _ => 1023) (tempSensors.getD 3 0) initialState).state).didAnalogRead
      = false ∧
    (readTemperature 5500 (fun _ => 77) (tempSensors.getD 3 0)
        (readTemperature 5000 (fun _ => 1023) (tempSensors.getD 3 0) initialState).state).state =
      (readTemperature 5000 (fun _ => 1023) (tempSensors.getD 3 0) initialState).state :=
  readTemperature_error_poisons_cache initialState 3 5000 5500
    (fun _ => 1023) (fun _ => 77)
    (by with_unfolding_all decide) (by decide)
    (by with_unfolding_all decide) (by with_unfolding_all decide)
    (by with_unfolding_all decide)

end HeatBed
